import Mathlib

/-!
Verification development for the MovieMate recommendation backend
(`app/services/recommendation_service.py`, `app/services/collaborative_service.py`,
`app/services/rating_service.py` and the models in `app/models/`).

The Python services are shallowly embedded: SQLAlchemy tables become lists of
records, timestamps become integers (in days), floats become rationals, and the
TMDB metadata provider becomes an explicit `Option`-valued argument (`none`
models an HTTP failure of the upstream call).
-/

namespace MovieMate

/-- A row of the `movie_cache` table (`app/models/movie_cache.py`).  Nullable
columns are `Option`; `cached_at` is an integer timestamp in days.
`keywordNames` models the value visible through
`getattr(movie, "keyword_names", None)` (the read used by
`_get_mood_base_scores`): the migration
`app/migrations/add_keyword_names_to_movie_cache.py` adds the column to the
database table, but the ORM model declares no such attribute, so on every
instance the ORM produces this value is `none` — a direct
`movie.keyword_names` read raises `AttributeError`, and passing the kwarg to
the constructor raises `TypeError`. The field is kept as an `Option` to
express the intended schema. -/
structure MovieCache where
  id : Nat
  tmdbId : Nat
  title : String
  overview : String
  releaseDate : Option String
  posterPath : Option String
  backdropPath : Option String
  voteAverage : Option ℚ
  popularity : Option ℚ
  genres : Option (List Nat)
  keywords : Option (List Nat)
  keywordNames : Option (List String)
  cast : Option (List Nat)
  crew : Option (List Nat)
  cachedAt : Int
  deriving DecidableEq

/-- One crew entry of the TMDB credits block (`{id, job, ...}`). -/
structure CrewMember where
  memberId : Nat
  job : String
  deriving DecidableEq

/-- One keyword entry of the TMDB keywords response (`{id, name}`). -/
structure KeywordItem where
  keywordId : Nat
  name : String
  deriving DecidableEq

/-- The fields of `TMDBService.get_movie_details` used by
`fetch_and_cache_movie`. -/
structure MovieDetails where
  title : String
  overview : String
  releaseDate : String
  posterPath : Option String
  backdropPath : Option String
  voteAverage : ℚ
  popularity : ℚ
  genreIds : List Nat
  castIds : List Nat
  crew : List CrewMember
  deriving DecidableEq

/-- Combined result of the two upstream calls made by `fetch_and_cache_movie`
(the details request and the `/movie/{id}/keywords` request); a failure of
either raises `HTTPException` in the source and is modelled as `none` for the
whole payload. -/
structure ProviderPayload where
  details : MovieDetails
  keywords : List KeywordItem
  deriving DecidableEq

/-- `RecommendationService.CACHE_EXPIRY_DAYS` (7 days). -/
def CACHE_EXPIRY_DAYS : Int := 7

/-- The freshness filter of `fetch_and_cache_movie`:
`MovieCache.cached_at > datetime.now() - timedelta(days=CACHE_EXPIRY_DAYS)`. -/
def isFresh (now : Int) (m : MovieCache) : Bool :=
  now - CACHE_EXPIRY_DAYS < m.cachedAt

/-- Python `str.lower()`, modelled characterwise. -/
def lowerStr (s : String) : String := String.mk (s.data.map Char.toLower)

/-- `RecommendationService.fetch_and_cache_movie`.  Returns the produced row
(or `none` on any error), the resulting table state, and whether the TMDB
provider was invoked.  The paths mirror the source: a fresh cached row
(`cached_at` within 7 days) is returned immediately without an upstream call;
a provider `HTTPException` is caught and yields `none` after a rollback; and
on a cache miss with a successful fetch, the feature extraction (lines
165-183) runs but the `MovieCache(...)` construction at line 186 raises
`TypeError` — the model in `app/models/movie_cache.py` has no
`keyword_names` column, so the kwarg is invalid — which the blanket `except`
turns into a rollback and `none`.  The miss path therefore never stores
anything and always returns `none` (even with the column present, inserting
a second row for an already-cached tmdb id would violate the unique
`tmdb_id` constraint at commit). -/
def fetchAndCacheMovie (store : List MovieCache) (now : Int) (movieId : Nat)
    (provider : Option ProviderPayload) :
    Option MovieCache × List MovieCache × Bool :=
  match store.find? (fun m => m.tmdbId == movieId && isFresh now m) with
  | some cached => (some cached, store, false)
  | none =>
    match provider with
    | none => (none, store, true)
    | some _ => (none, store, true)

/-- A concrete stale cache row (cached at time 0) for the tmdb id 550. -/
def staleRow550 : MovieCache :=
  { id := 1
    tmdbId := 550
    title := "Fight Club"
    overview := "cached overview"
    releaseDate := some "1999-10-15"
    posterPath := none
    backdropPath := none
    voteAverage := some 8
    popularity := some 60
    genres := some [18, 53]
    keywords := some [818]
    keywordNames := none
    cast := some [819]
    crew := some [7467]
    cachedAt := 0 }

/-- A concrete successful TMDB payload for tmdb id 550. -/
def payload550 : ProviderPayload :=
  { details :=
      { title := "Fight Club"
        overview := "fresh overview"
        releaseDate := "1999-10-15"
        posterPath := some "/poster.jpg"
        backdropPath := none
        voteAverage := 8
        popularity := 70
        genreIds := [18, 53, 35]
        castIds := [819, 820]
        crew := [⟨7467, "Director"⟩, ⟨7468, "Editor"⟩, ⟨7469, "Writer"⟩] }
    keywords := [⟨818, "Based On Novel"⟩, ⟨825, "support group"⟩] }

/-- C4: within-window idempotent caching is impossible in the source — a
cache-miss call never stores anything (the `MovieCache(...)` construction
raises `TypeError` on the `keyword_names` kwarg, since the ORM model lacks
that column, and the blanket `except` rolls back and returns `None`), so
calling `fetch_and_cache_movie` twice on an empty cache with a succeeding
provider returns `None` both times, leaves the table empty, and invokes the
TMDB provider a second time instead of hitting the cache. -/
theorem fetchAndCacheMovie_repeat_refetches :
    fetchAndCacheMovie [] 0 550 (some payload550) = (none, [], true) ∧
    fetchAndCacheMovie [] 3 550 (some payload550) = (none, [], true) :=
  ⟨rfl, rfl⟩

/-- C1 (counterexample): with a stored entry for tmdb id 550 that is stale at
time 8 and a failing provider fetch, `fetch_and_cache_movie` returns `none`
instead of the stale entry — there is no soft-fail read. -/
theorem fetchAndCacheMovie_soft_fail_cex :
    staleRow550.tmdbId = 550 ∧ isFresh 8 staleRow550 = false ∧
      (fetchAndCacheMovie [staleRow550] 8 550 none).1 = none := by
  decide

/-- C1 (amended): when no fresh entry exists for the id (in particular when the
stored entry is stale) and the provider fetch fails, `fetch_and_cache_movie`
returns `none` and leaves the table unchanged; the stale entry is never
returned. -/
theorem fetchAndCacheMovie_provider_failure_returns_none (store : List MovieCache)
    (now : Int) (movieId : Nat)
    (h : ∀ m ∈ store, m.tmdbId = movieId → isFresh now m = false) :
    fetchAndCacheMovie store now movieId none = (none, store, true) := by
  unfold fetchAndCacheMovie
  have hfind : store.find? (fun m => m.tmdbId == movieId && isFresh now m) = none := by
    rw [List.find?_eq_none]
    intro m hm hp
    rw [Bool.and_eq_true, beq_iff_eq] at hp
    rw [h m hm hp.1] at hp
    exact Bool.false_ne_true hp.2
  rw [hfind]

/-- Witness for the amended C1 at the concrete stale store. -/
theorem fetchAndCacheMovie_provider_failure_witness :
    fetchAndCacheMovie [staleRow550] 8 550 none = (none, [staleRow550], true) :=
  fetchAndCacheMovie_provider_failure_returns_none [staleRow550] 8 550 (by decide)

/-- C2: refreshing a stale entry with a SUCCESSFUL provider fetch does not
upsert — the insert of a second row for tmdb id 550 violates the unique
constraint, the blanket `except` rolls back and returns `none`, and the stored
row keeps its old `cached_at` (0, not advanced), contradicting the documented
create-or-update intent. -/
theorem fetchAndCacheMovie_stale_refresh_returns_none :
    fetchAndCacheMovie [staleRow550] 8 550 (some payload550) =
      (none, [staleRow550], true) ∧ staleRow550.cachedAt = 0 := by
  decide

/-- UTF-8 encoding of a single code point. -/
def utf8Bytes (c : Char) : List Nat :=
  let n := c.toNat
  if n < 0x80 then [n]
  else if n < 0x800 then [0xC0 + n / 64, 0x80 + n % 64]
  else if n < 0x10000 then [0xE0 + n / 4096, 0x80 + n / 64 % 64, 0x80 + n % 64]
  else [0xF0 + n / 262144, 0x80 + n / 4096 % 64, 0x80 + n / 64 % 64, 0x80 + n % 64]

/-- Python `str.encode("utf-8")` as a byte list. -/
def strBytes (s : String) : List Nat := s.data.flatMap utf8Bytes

/-- One bit iteration of the reflected CRC-32 with polynomial 0xEDB88320. -/
def crc32Step (crc : Nat) : Nat :=
  if crc % 2 = 1 then Nat.xor (crc / 2) 0xEDB88320 else crc / 2

/-- Eight bit iterations for one input byte. -/
def crc32Byte (crc byte : Nat) : Nat := crc32Step^[8] (Nat.xor crc byte)

/-- `zlib.crc32` over a byte list (initial and final xor 0xFFFFFFFF);
validated against zlib on concrete strings. -/
def crc32 (bytes : List Nat) : Nat :=
  Nat.xor (bytes.foldl crc32Byte 0xFFFFFFFF) 0xFFFFFFFF

/-- `RecommendationService._stable_hash` applied to an already-stringified
value: `zlib.crc32(str(value).encode("utf-8"))`. -/
def stableHash (s : String) : Nat := crc32 (strBytes s)

/-- `list(dict.fromkeys(xs))` (and `list(set(xs))` where the claims do not
depend on the arbitrary set order): duplicate removal that keeps the first
occurrence of each value, preserving insertion order. -/
def firstDedup {α : Type} [DecidableEq α] (xs : List α) : List α :=
  xs.foldl (fun acc v => if v ∈ acc then acc else acc ++ [v]) []

/-- Membership in the accumulator-passing loop of `firstDedup`. -/
theorem mem_firstDedup_foldl {α : Type} [DecidableEq α] :
    ∀ (l : List α) (acc : List α) (x : α),
      x ∈ l.foldl (fun acc v => if v ∈ acc then acc else acc ++ [v]) acc ↔
        x ∈ acc ∨ x ∈ l
  | [], acc, x => by simp
  | v :: t, acc, x => by
    rw [List.foldl_cons, mem_firstDedup_foldl t _ x]
    by_cases hv : v ∈ acc
    · simp only [if_pos hv, List.mem_cons]
      constructor
      · rintro (h | h)
        · exact Or.inl h
        · exact Or.inr (Or.inr h)
      · rintro (h | rfl | h)
        · exact Or.inl h
        · exact Or.inl hv
        · exact Or.inr h
    · simp only [if_neg hv, List.mem_append, List.mem_singleton, List.mem_cons]
      tauto

/-- `firstDedup` has exactly the members of its input. -/
theorem mem_firstDedup {α : Type} [DecidableEq α] (l : List α) (x : α) :
    x ∈ firstDedup l ↔ x ∈ l := by
  rw [firstDedup, mem_firstDedup_foldl]
  simp

/-- `RecommendationService.GENRE_BUCKETS`. -/
def GENRE_BUCKETS : Nat := 32

/-- `RecommendationService.KEYWORD_BUCKETS`. -/
def KEYWORD_BUCKETS : Nat := 96

/-- `RecommendationService.CAST_BUCKETS`. -/
def CAST_BUCKETS : Nat := 96

/-- `RecommendationService.CREW_BUCKETS`. -/
def CREW_BUCKETS : Nat := 32

/-- `RecommendationService.FEATURE_VECTOR_SIZE` (= 256). -/
def FEATURE_VECTOR_SIZE : Nat :=
  GENRE_BUCKETS + KEYWORD_BUCKETS + CAST_BUCKETS + CREW_BUCKETS

/-- `RecommendationService.GENRE_WEIGHT`. -/
def GENRE_WEIGHT : ℚ := 0.4

/-- `RecommendationService.KEYWORD_WEIGHT`. -/
def KEYWORD_WEIGHT : ℚ := 0.3

/-- `RecommendationService.CAST_WEIGHT`. -/
def CAST_WEIGHT : ℚ := 0.2

/-- `RecommendationService.CREW_WEIGHT`. -/
def CREW_WEIGHT : ℚ := 0.1

/-- `RecommendationService._encode_sparse_feature`.  The numpy vector is
modelled as a function from index to value; the values list is already
stringified elementwise (the source normalizes each non-string value with
`str`), `none` models a `None`/missing list and an empty list is the falsy
early return.  The category weight is divided evenly over the distinct values
(`list(dict.fromkeys(...))`, insertion-order stable) and accumulated into the
bucket `_stable_hash(val) % bucket_count` at the category offset. -/
def encodeSparseFeature (vector : Nat → ℚ) (values : Option (List String))
    (bucketCount offset : Nat) (weight : ℚ) : Nat → ℚ :=
  match values with
  | none => vector
  | some vals =>
    if vals = [] then vector
    else
      let uniqueValues := firstDedup vals
      let norm := weight / uniqueValues.length
      uniqueValues.foldl
        (fun vec val =>
          let bucket := stableHash val % bucketCount
          fun i => if i = offset + bucket then vec i + norm else vec i)
        vector

/-- `RecommendationService.create_feature_vector`.  The genre segment
(lines 264-274) is encoded into the first 32 buckets of the 256-length
vector, but line 277 then reads `movie.keyword_names` directly — the
`MovieCache` ORM model declares no such column or attribute, so the read
raises `AttributeError` on every instance and the function never returns a
vector.  The raise is modelled as `none`; the discarded genre encoding is
kept to mark where execution stops. -/
def createFeatureVector (movie : MovieCache) : Option (List ℚ) :=
  let v0 : Nat → ℚ := fun _ => 0
  let _v1 := encodeSparseFeature v0
    (some ((movie.genres.getD []).map (fun n => toString n)))
    GENRE_BUCKETS 0 GENRE_WEIGHT
  none

/-- C5: create_feature_vector (vectorize) cannot fulfil the determinism
contract because it never produces a vector at all: the direct
`movie.keyword_names` read at recommendation_service.py line 277 raises
`AttributeError` on every `MovieCache` row (the ORM model lacks the column
the migrations add), so every call — in particular on two rows with
elementwise-identical feature lists — ends in the crash outcome instead of
bit-identical vectors.  The underlying encoder `_encode_sparse_feature` is
deterministic by construction (crc32 hashing, insertion-order-stable
`dict.fromkeys` extraction), so the crash is the only obstacle. -/
theorem createFeatureVector_always_crashes (movie : MovieCache) :
    createFeatureVector movie = none := rfl

/-- Round half to even on rationals, the rounding mode of Python `round`. -/
def roundHalfEven (x : ℚ) : ℤ :=
  let f := ⌊x⌋
  let r := x - f
  if r < 1/2 then f
  else if 1/2 < r then f + 1
  else if f % 2 = 0 then f else f + 1

/-- Python `round(x, 3)`. -/
def rnd3 (x : ℚ) : ℚ := (roundHalfEven (x * 1000) : ℚ) / 1000

/-- A result row of `get_similar_by_genre` (the dict built at the end of the
candidate loop). -/
structure GenreScored where
  tmdbId : Nat
  title : String
  posterPath : Option String
  backdropPath : Option String
  voteAverage : ℚ
  popularity : ℚ
  releaseDate : Option String
  overview : String
  genres : List Nat
  similarityScore : ℚ
  genreOverlap : Nat
  deriving DecidableEq

/-- The genre-overlap fallback formula of `get_similar_by_genre` before the
3-decimal rounding:
`genre_similarity * 0.7 + (vote_avg / 10) * 0.2 + (min(popularity, 100) / 100) * 0.1`
with `genre_similarity` the Jaccard index of the two genre sets. -/
def genreFallbackScore (targetGenres candGenres : Finset Nat)
    (voteAvg popularity : ℚ) : ℚ :=
  ((targetGenres ∩ candGenres).card : ℚ) / ((targetGenres ∪ candGenres).card) * 0.7
    + voteAvg / 10 * 0.2 + min popularity 100 / 100 * 0.1

/-- The body of the candidate loop of `get_similar_by_genre`: skip candidates
with an empty genre set or zero overlap with the target, otherwise build the
scored dict (with the score rounded to 3 decimals, as stored by the source). -/
def scoreCandidate (targetGenres : Finset Nat) (m : MovieCache) :
    Option GenreScored :=
  let movieGenresRaw := m.genres.getD []
  let movieGenres := movieGenresRaw.toFinset
  if movieGenres = ∅ then none
  else
    let overlap := (targetGenres ∩ movieGenres).card
    if overlap = 0 then none
    else
      let voteAvg := m.voteAverage.getD 0
      let popularity := m.popularity.getD 0
      some { tmdbId := m.tmdbId
             title := m.title
             posterPath := m.posterPath
             backdropPath := m.backdropPath
             voteAverage := voteAvg
             popularity := popularity
             releaseDate := m.releaseDate
             overview := m.overview
             genres := movieGenresRaw
             similarityScore :=
               rnd3 (genreFallbackScore targetGenres movieGenres voteAvg popularity)
             genreOverlap := overlap }

/-- `RecommendationService.get_similar_by_genre`: look up the target row,
require its genres column to be a list, score every other row whose genres
column is non-null, sort by the stored (rounded) score descending with the
stable sort of Python, and truncate to `limit`. -/
def getSimilarByGenre (store : List MovieCache) (movieId : Nat) (limit : Nat) :
    List GenreScored :=
  match store.find? (fun m => m.tmdbId == movieId) with
  | none => []
  | some target =>
    match target.genres with
    | none => []
    | some targetGenresRaw =>
      let targetGenres := targetGenresRaw.toFinset
      let candidates := store.filter (fun m => m.tmdbId != movieId && m.genres.isSome)
      let scored := candidates.filterMap (scoreCandidate targetGenres)
      (scored.mergeSort
        (fun a b => decide (b.similarityScore ≤ a.similarityScore))).take limit

/-- The target genre set `get_similar_by_genre` works with (empty when the
target row is missing or its genres column is null). -/
def targetGenresOf (store : List MovieCache) (movieId : Nat) : Finset Nat :=
  ((((store.find? (fun m => m.tmdbId == movieId)).bind (·.genres)).getD []).toFinset)

/-- A concrete target row (tmdb id 10) with genres {1, 2, 3}. -/
def genreTarget10 : MovieCache :=
  { id := 1
    tmdbId := 10
    title := "Target"
    overview := ""
    releaseDate := none
    posterPath := none
    backdropPath := none
    voteAverage := some 0
    popularity := some 0
    genres := some [1, 2, 3]
    keywords := none
    keywordNames := none
    cast := none
    crew := none
    cachedAt := 0 }

/-- A concrete candidate row (tmdb id 11) sharing exactly one genre with the
target, with vote average and popularity 0. -/
def genreCand11 : MovieCache :=
  { id := 2
    tmdbId := 11
    title := "Cand"
    overview := ""
    releaseDate := none
    posterPath := none
    backdropPath := none
    voteAverage := some 0
    popularity := some 0
    genres := some [1]
    keywords := none
    keywordNames := none
    cast := none
    crew := none
    cachedAt := 0 }

/-- The two-row store used to evaluate the genre fallback concretely. -/
def genreStore : List MovieCache := [genreTarget10, genreCand11]

/-- The single result the fallback produces on `genreStore`. -/
def genreEntry11 : GenreScored :=
  { tmdbId := 11
    title := "Cand"
    posterPath := none
    backdropPath := none
    voteAverage := 0
    popularity := 0
    releaseDate := none
    overview := ""
    genres := [1]
    similarityScore := 233/1000
    genreOverlap := 1 }

/-- Concrete evaluation of `get_similar_by_genre` on the two-row store. -/
theorem genreStore_eval : getSimilarByGenre genreStore 10 20 = [genreEntry11] := by
  simp [getSimilarByGenre, genreStore, genreTarget10, genreCand11, genreEntry11,
    scoreCandidate, genreFallbackScore, rnd3, roundHalfEven]
  norm_num [Int.fract]

/-- C6 (counterexample): in genre-overlap fallback mode the stored
similarity_score is `round(formula, 3)`, not exactly the formula: with
Jaccard 1/3 and zero vote/popularity the formula value is 7/30 while the
returned score is 0.233. -/
theorem getSimilarByGenre_round_cex :
    (getSimilarByGenre genreStore 10 20).map (·.similarityScore) = [233/1000] ∧
    genreFallbackScore (targetGenresOf genreStore 10)
      ([1] : List Nat).toFinset 0 0 = 7/30 ∧
    (233/1000 : ℚ) ≠ 7/30 := by
  refine ⟨by rw [genreStore_eval]; rfl, ?_, by norm_num⟩
  simp [genreFallbackScore, targetGenresOf, genreStore, genreTarget10, genreCand11]
  norm_num

/-- C6 (amended): in genre-overlap fallback mode every returned candidate
shares at least one genre with the target (zero-overlap candidates never
appear, not even with score 0), each stored score is exactly the 3-decimal
rounding of `0.7 * Jaccard + 0.2 * (vote_average/10) +
0.1 * (min(popularity,100)/100)` evaluated on the entry's own data, and the
returned list is sorted by this stored score descending. -/
theorem getSimilarByGenre_fallback_spec (store : List MovieCache)
    (movieId limit : Nat) :
    (getSimilarByGenre store movieId limit).Pairwise
      (fun a b => b.similarityScore ≤ a.similarityScore) ∧
    ∀ e ∈ getSimilarByGenre store movieId limit,
      0 < e.genreOverlap ∧
      e.genreOverlap = (targetGenresOf store movieId ∩ e.genres.toFinset).card ∧
      e.similarityScore = rnd3 (genreFallbackScore (targetGenresOf store movieId)
        e.genres.toFinset e.voteAverage e.popularity) := by
  constructor
  · unfold getSimilarByGenre
    split
    · exact List.Pairwise.nil
    · split
      · exact List.Pairwise.nil
      · apply List.Pairwise.sublist (List.take_sublist _ _)
        refine List.Pairwise.imp (fun h => of_decide_eq_true h)
          (List.sorted_mergeSort ?_ ?_ _)
        · intro a b c hab hbc
          rw [decide_eq_true_eq] at *
          exact le_trans hbc hab
        · intro a b
          rw [Bool.or_eq_true, decide_eq_true_eq, decide_eq_true_eq]
          exact le_total _ _
  · intro e he
    unfold getSimilarByGenre at he
    split at he
    · cases he
    · rename_i target hfind
      split at he
      · cases he
      · rename_i tg hg
        have htg : targetGenresOf store movieId = tg.toFinset := by
          simp only [targetGenresOf, hfind, Option.some_bind, hg, Option.getD_some]
        have he2 := List.take_subset _ _ he
        rw [List.mem_mergeSort] at he2
        obtain ⟨m, hm, hsc⟩ := List.mem_filterMap.mp he2
        simp only [scoreCandidate] at hsc
        split at hsc
        · cases hsc
        · split at hsc
          · cases hsc
          · rename_i hne hov
            injection hsc with hre
            subst hre
            refine ⟨Nat.pos_of_ne_zero hov, ?_, ?_⟩
            · rw [htg]
            · rw [htg]

/-- Witness for the amended C6 at the concrete two-row store. -/
theorem getSimilarByGenre_fallback_witness :
    0 < genreEntry11.genreOverlap ∧
    genreEntry11.genreOverlap =
      (targetGenresOf genreStore 10 ∩ genreEntry11.genres.toFinset).card ∧
    genreEntry11.similarityScore =
      rnd3 (genreFallbackScore (targetGenresOf genreStore 10)
        genreEntry11.genres.toFinset genreEntry11.voteAverage
        genreEntry11.popularity) :=
  (getSimilarByGenre_fallback_spec genreStore 10 20).2 genreEntry11
    (by rw [genreStore_eval]; exact List.mem_singleton_self _)

/-- A row of the ratings table (`app/models/rating.py`): `user_id` and
`movie_id` reference `users.id` and `movies.id` (internal ids, ondelete
cascade), one row per (user, movie) pair. -/
structure RatingRow where
  userId : Nat
  movieId : Nat
  rating : ℚ
  deriving DecidableEq

/-- `CollaborativeService.MIN_RATINGS_FOR_CF`. -/
def MIN_RATINGS_FOR_CF : Nat := 10

/-- The matrix cell fill of `build_user_item_matrix`: each rating row writes
`matrix[user][movie] = rating` in order, so the last row for the pair wins;
unrated cells stay 0. -/
def matrixEntry (ratings : List RatingRow) (uid mid : Nat) : ℚ :=
  (ratings.foldl
    (fun acc r => if r.userId = uid ∧ r.movieId = mid then some r.rating else acc)
    none).getD 0

/-- `CollaborativeService.build_user_item_matrix`: `none` models the
insufficient-data return `(None, None, None)` when fewer than 10 ratings are
stored; otherwise the distinct user ids and movie ids (`list(set(...))`,
modelled in first-occurrence order) that index the matrix. -/
def buildUserItemMatrix (ratings : List RatingRow) :
    Option (List Nat × List Nat) :=
  if ratings.length < MIN_RATINGS_FOR_CF then none
  else some (firstDedup (ratings.map (·.userId)), firstDedup (ratings.map (·.movieId)))

/-- The inner neighbor loop of `predict_ratings_collaborative`: for the given
movie, accumulate `similarity * rating` and `abs(similarity)` over the
neighbors that rated it (`sim_rating > 0`).  The neighbor list models
`zip(similar_users, similarities)` from `get_user_similarity` (matrix row
indices with their cosine similarities). -/
def nbStep (ratings : List RatingRow) (userIds : List Nat) (movieId : Nat)
    (acc : ℚ × ℚ) (nb : Nat × ℚ) : ℚ × ℚ :=
  let simRating := matrixEntry ratings (userIds.getD nb.1 0) movieId
  if simRating > 0 then (acc.1 + nb.2 * simRating, acc.2 + |nb.2|) else acc

/-- See `nbStep`: the fold over the neighbors with both sums starting at 0. -/
def neighborSums (ratings : List RatingRow) (userIds : List Nat)
    (neighbors : List (Nat × ℚ)) (movieId : Nat) : ℚ × ℚ :=
  neighbors.foldl (nbStep ratings userIds movieId) (0, 0)

/-- One iteration of the candidate loop of `predict_ratings_collaborative`:
skip ids outside the matrix, return an already-stored rating verbatim
(`matrix[user_idx][movie_idx] > 0`), otherwise the neighbor-weighted average
when some neighbor rated the movie (`denominator > 0`), else omit. -/
def predictStep (ratings : List RatingRow) (userIds matrixMovieIds : List Nat)
    (neighbors : List (Nat × ℚ)) (userId : Nat)
    (predictions : List (Nat × ℚ)) (movieId : Nat) : List (Nat × ℚ) :=
  if movieId ∉ matrixMovieIds then predictions
  else
    let own := matrixEntry ratings userId movieId
    if own > 0 then predictions ++ [(movieId, own)]
    else
      let nd := neighborSums ratings userIds neighbors movieId
      if nd.2 > 0 then predictions ++ [(movieId, nd.1 / nd.2)]
      else predictions

/-- `CollaborativeService.predict_ratings_collaborative`: empty when the
matrix could not be built (fewer than 10 ratings), when the target user is
absent from the matrix, or when no similar users were found; otherwise the
prediction dict built by the candidate loop (as an association list in
insertion order). -/
def predictRatingsCollaborative (ratings : List RatingRow) (userId : Nat)
    (movieIds : List Nat) (neighbors : List (Nat × ℚ)) : List (Nat × ℚ) :=
  match buildUserItemMatrix ratings with
  | none => []
  | some (userIds, matrixMovieIds) =>
    if userId ∉ userIds then []
    else if neighbors = [] then []
    else movieIds.foldl (predictStep ratings userIds matrixMovieIds neighbors userId) []

/-- C7: predict_ratings_collaborative reports insufficient data as an empty
mapping, not an exception: it is empty whenever fewer than 10 ratings are
stored in total, and likewise whenever the target user has no ratings and is
therefore absent from the user-item matrix. -/
theorem predictRatingsCollaborative_insufficient (ratings : List RatingRow)
    (userId : Nat) (movieIds : List Nat) (neighbors : List (Nat × ℚ)) :
    (ratings.length < MIN_RATINGS_FOR_CF →
      predictRatingsCollaborative ratings userId movieIds neighbors = []) ∧
    ((∀ r ∈ ratings, r.userId ≠ userId) →
      predictRatingsCollaborative ratings userId movieIds neighbors = []) := by
  constructor
  · intro h
    unfold predictRatingsCollaborative buildUserItemMatrix
    rw [if_pos h]
  · intro h
    unfold predictRatingsCollaborative buildUserItemMatrix
    by_cases hlen : ratings.length < MIN_RATINGS_FOR_CF
    · rw [if_pos hlen]
    · rw [if_neg hlen]
      have habsent : userId ∉ firstDedup (ratings.map (·.userId)) := by
        rw [mem_firstDedup]
        intro hmem
        obtain ⟨r, hr, hru⟩ := List.mem_map.mp hmem
        exact h r hr hru
      simp only [habsent, not_false_eq_true, if_pos]

/-- Five concrete ratings — below the 10-rating minimum. -/
def ratingsSmall : List RatingRow :=
  [⟨1, 1, 8⟩, ⟨1, 2, 7⟩, ⟨2, 1, 6⟩, ⟨2, 3, 9⟩, ⟨3, 2, 5⟩]

/-- Ten concrete ratings by users 1 and 2 (movie 6 rated only by user 2). -/
def ratingsTen : List RatingRow :=
  [⟨1, 1, 8⟩, ⟨1, 2, 8⟩, ⟨1, 3, 8⟩, ⟨1, 4, 8⟩, ⟨1, 5, 8⟩,
   ⟨2, 1, 6⟩, ⟨2, 2, 6⟩, ⟨2, 3, 6⟩, ⟨2, 4, 6⟩, ⟨2, 6, 8⟩]

/-- Witness for C7: 5 total ratings give an empty mapping, and a user with no
ratings gives an empty mapping even with 10 ratings stored. -/
theorem predictRatingsCollaborative_insufficient_witness :
    predictRatingsCollaborative ratingsSmall 1 [1] [] = [] ∧
    predictRatingsCollaborative ratingsTen 99 [6] [(1, 1)] = [] :=
  ⟨(predictRatingsCollaborative_insufficient ratingsSmall 1 [1] []).1 (by decide),
   (predictRatingsCollaborative_insufficient ratingsTen 99 [6] [(1, 1)]).2 (by decide)⟩

/-- A matrix cell is sane: 0 (unrated) or within the stored rating range. -/
def cellOk (o : Option ℚ) : Prop :=
  o.getD 0 = 0 ∨ (1 ≤ o.getD 0 ∧ o.getD 0 ≤ 10)

/-- The cell fill loop preserves `cellOk` when all stored ratings lie in
[1, 10]. -/
theorem matrixEntry_fold_ok (uid mid : Nat) :
    ∀ (l : List RatingRow) (o : Option ℚ),
      (∀ r ∈ l, 1 ≤ r.rating ∧ r.rating ≤ 10) → cellOk o →
      cellOk (l.foldl
        (fun acc r => if r.userId = uid ∧ r.movieId = mid then some r.rating else acc)
        o)
  | [], _, _, ho => ho
  | r :: t, o, hr, ho => by
    rw [List.foldl_cons]
    apply matrixEntry_fold_ok uid mid t _
      (fun x hx => hr x (List.mem_cons_of_mem _ hx))
    by_cases hc : r.userId = uid ∧ r.movieId = mid
    · rw [if_pos hc]
      exact Or.inr (hr r (List.mem_cons_self _ _))
    · rw [if_neg hc]
      exact ho

/-- Every matrix cell is 0 or lies in [1, 10] when all ratings do. -/
theorem matrixEntry_ok (ratings : List RatingRow)
    (hr : ∀ r ∈ ratings, 1 ≤ r.rating ∧ r.rating ≤ 10) (uid mid : Nat) :
    matrixEntry ratings uid mid = 0 ∨
      (1 ≤ matrixEntry ratings uid mid ∧ matrixEntry ratings uid mid ≤ 10) :=
  matrixEntry_fold_ok uid mid ratings none hr (Or.inl rfl)

/-- Invariant of the neighbor sums: the denominator is non-negative and the
numerator is squeezed between `1 * denominator` and `10 * denominator`. -/
def sumsOk (nd : ℚ × ℚ) : Prop :=
  0 ≤ nd.2 ∧ nd.2 ≤ nd.1 ∧ nd.1 ≤ 10 * nd.2

/-- The neighbor loop preserves `sumsOk` for non-negative similarities. -/
theorem nbStep_fold_ok (ratings : List RatingRow) (userIds : List Nat)
    (movieId : Nat) (hr : ∀ r ∈ ratings, 1 ≤ r.rating ∧ r.rating ≤ 10) :
    ∀ (nbs : List (Nat × ℚ)) (acc : ℚ × ℚ),
      (∀ nb ∈ nbs, 0 ≤ nb.2) → sumsOk acc →
      sumsOk (nbs.foldl (nbStep ratings userIds movieId) acc)
  | [], _, _, ha => ha
  | nb :: t, acc, hs, ha => by
    rw [List.foldl_cons]
    apply nbStep_fold_ok ratings userIds movieId hr t _
      (fun x hx => hs x (List.mem_cons_of_mem _ hx))
    unfold nbStep
    by_cases hsr : matrixEntry ratings (userIds.getD nb.1 0) movieId > 0
    · rw [if_pos hsr]
      have hnb : 0 ≤ nb.2 := hs nb (List.mem_cons_self _ _)
      have habs : |nb.2| = nb.2 := abs_of_nonneg hnb
      have hbound : 1 ≤ matrixEntry ratings (userIds.getD nb.1 0) movieId ∧
          matrixEntry ratings (userIds.getD nb.1 0) movieId ≤ 10 := by
        rcases matrixEntry_ok ratings hr (userIds.getD nb.1 0) movieId with h0 | hb
        · rw [h0] at hsr
          exact absurd hsr (lt_irrefl 0)
        · exact hb
      refine ⟨add_nonneg ha.1 (abs_nonneg _), ?_, ?_⟩
      · rw [habs]
        exact add_le_add ha.2.1 (le_mul_of_one_le_right hnb hbound.1)
      · rw [mul_add, habs]
        refine add_le_add ha.2.2 ?_
        rw [mul_comm (10 : ℚ) nb.2]
        exact mul_le_mul_of_nonneg_left hbound.2 hnb
    · rw [if_neg hsr]
      exact ha

/-- The candidate loop of the prediction keeps every emitted value in
[1, 10]. -/
theorem predictStep_fold_ok (ratings : List RatingRow)
    (userIds mIds : List Nat) (neighbors : List (Nat × ℚ)) (userId : Nat)
    (hr : ∀ r ∈ ratings, 1 ≤ r.rating ∧ r.rating ≤ 10)
    (hs : ∀ nb ∈ neighbors, 0 ≤ nb.2) :
    ∀ (mids : List Nat) (acc : List (Nat × ℚ)),
      (∀ p ∈ acc, 1 ≤ p.2 ∧ p.2 ≤ 10) →
      ∀ p ∈ mids.foldl (predictStep ratings userIds mIds neighbors userId) acc,
        1 ≤ p.2 ∧ p.2 ≤ 10
  | [], _, hacc, p, hp => hacc p hp
  | mid :: t, acc, hacc, p, hp => by
    rw [List.foldl_cons] at hp
    refine predictStep_fold_ok ratings userIds mIds neighbors userId hr hs t _
      ?_ p hp
    intro q hq
    unfold predictStep at hq
    by_cases hmem : mid ∉ mIds
    · rw [if_pos hmem] at hq
      exact hacc q hq
    · rw [if_neg hmem] at hq
      by_cases hown : matrixEntry ratings userId mid > 0
      · rw [if_pos hown] at hq
        rcases List.mem_append.mp hq with h | h
        · exact hacc q h
        · rw [List.mem_singleton] at h
          subst h
          rcases matrixEntry_ok ratings hr userId mid with h0 | hb
          · rw [h0] at hown
            exact absurd hown (lt_irrefl 0)
          · exact hb
      · rw [if_neg hown] at hq
        by_cases hden : (neighborSums ratings userIds neighbors mid).2 > 0
        · rw [if_pos hden] at hq
          rcases List.mem_append.mp hq with h | h
          · exact hacc q h
          · rw [List.mem_singleton] at h
            subst h
            have hnd : sumsOk (neighborSums ratings userIds neighbors mid) :=
              nbStep_fold_ok ratings userIds mid hr neighbors (0, 0) hs
                ⟨le_refl 0, le_refl 0, by rw [mul_zero]⟩
            constructor
            · rw [le_div_iff₀ hden, one_mul]
              exact hnd.2.1
            · rw [div_le_iff₀ hden]
              exact hnd.2.2
        · rw [if_neg hden] at hq
          exact hacc q hq

/-- C10: provided every stored rating lies in [1, 10] and the neighbor
similarities are non-negative (as cosine similarities of rows of the
entrywise non-negative rating matrix are), every value in the mapping
returned by predict_ratings_collaborative lies in [1, 10] — already-stored
ratings are returned verbatim and predictions are neighbor-weighted averages
squeezed between the smallest and largest contributing rating. -/
theorem predictRatingsCollaborative_range (ratings : List RatingRow)
    (userId : Nat) (movieIds : List Nat) (neighbors : List (Nat × ℚ))
    (hr : ∀ r ∈ ratings, 1 ≤ r.rating ∧ r.rating ≤ 10)
    (hs : ∀ nb ∈ neighbors, 0 ≤ nb.2) :
    ∀ p ∈ predictRatingsCollaborative ratings userId movieIds neighbors,
      1 ≤ p.2 ∧ p.2 ≤ 10 := by
  intro p hp
  unfold predictRatingsCollaborative at hp
  cases hb : buildUserItemMatrix ratings with
  | none =>
    rw [hb] at hp
    cases hp
  | some pair =>
    obtain ⟨userIds, mIds⟩ := pair
    simp only [hb] at hp
    by_cases h1 : userId ∉ userIds
    · rw [if_pos h1] at hp
      cases hp
    · rw [if_neg h1] at hp
      by_cases h2 : neighbors = []
      · rw [if_pos h2] at hp
        cases hp
      · rw [if_neg h2] at hp
        exact predictStep_fold_ok ratings userIds mIds neighbors userId hr hs
          movieIds [] (fun q hq => absurd hq (List.not_mem_nil q)) p hp

/-- The dot product of two rating rows, the numerator of the cosine
similarity computed by `get_user_similarity`. -/
def dotQ (u v : List ℚ) : ℚ := (List.zipWith (· * ·) u v).sum

/-- The cosine numerator over entrywise non-negative rows is non-negative. -/
theorem dotQ_nonneg : ∀ (u v : List ℚ), (∀ x ∈ u, 0 ≤ x) → (∀ x ∈ v, 0 ≤ x) →
    0 ≤ dotQ u v
  | [], _, _, _ => by simp [dotQ]
  | _ :: _, [], _, _ => by simp [dotQ]
  | a :: u, b :: v, hu, hv => by
    simp only [dotQ, List.zipWith_cons_cons, List.sum_cons]
    refine add_nonneg
      (mul_nonneg (hu a (List.mem_cons_self _ _)) (hv b (List.mem_cons_self _ _)))
      (dotQ_nonneg u v (fun x hx => hu x (List.mem_cons_of_mem _ hx))
        (fun x hx => hv x (List.mem_cons_of_mem _ hx)))

/-- Supporting fact for the similarity hypothesis of the range theorem: a
cosine similarity of two entrywise non-negative rows — the non-negative dot
product divided by the non-negative product of norms — is non-negative, so
`get_user_similarity` returns non-negative weights on a rating matrix filled
from ratings in [1, 10]. -/
theorem cosine_of_nonneg_rows_nonneg (u v : List ℚ) (normProd : ℚ)
    (hu : ∀ x ∈ u, 0 ≤ x) (hv : ∀ x ∈ v, 0 ≤ x) (hn : 0 ≤ normProd) :
    0 ≤ dotQ u v / normProd :=
  div_nonneg (dotQ_nonneg u v hu hv) hn

/-- Concrete evaluation of the prediction on the ten-rating store: user 1 gets
movie 6 predicted 8 from the single neighbor (user 2, similarity 1). -/
theorem predictRatingsCollaborative_ten_eval :
    predictRatingsCollaborative ratingsTen 1 [6] [(1, 1)] = [(6, 8)] := by
  have h12 : ([1, 2] : List ℕ).getD 1 0 = 2 := by decide
  simp [predictRatingsCollaborative, buildUserItemMatrix, MIN_RATINGS_FOR_CF,
    firstDedup, ratingsTen, predictStep, neighborSums, nbStep, matrixEntry, h12]
  have hge : ([1, 2] : List ℕ)[1] = 2 := by simp
  simp only [hge]
  norm_num

/-- Witness for C10 at the concrete ten-rating store. -/
theorem predictRatingsCollaborative_range_witness :
    1 ≤ ((6, (8 : ℚ)) : Nat × ℚ).2 ∧ ((6, (8 : ℚ)) : Nat × ℚ).2 ≤ 10 :=
  predictRatingsCollaborative_range ratingsTen 1 [6] [(1, 1)]
    (by norm_num [ratingsTen]) (by norm_num) ((6, (8 : ℚ)) : Nat × ℚ)
    (by rw [predictRatingsCollaborative_ten_eval]; exact List.mem_singleton_self _)

/-- A row of the movies table (`app/models/movie.py`): the internal primary
key and the TMDB id; ratings reference the internal id. -/
structure MovieRow where
  id : Nat
  tmdbId : Nat
  deriving DecidableEq

/-- A content-based recommendation dict as consumed by the hybrid fusion:
dicts from get_similar_movies / get_similar_by_genre carry no `id` key
(`none`), while the popular-movies content fallback carries the MovieCache
primary key. -/
structure ContentRec where
  id : Option Nat
  tmdbId : Nat
  score : ℚ
  deriving DecidableEq

/-- A collaborative recommendation dict from
get_collaborative_recommendations: `id` is the MovieCache primary key. -/
structure CollabRec where
  id : Nat
  tmdbId : Nat
  predictedRating : ℚ
  deriving DecidableEq

/-- An entry of the `movie_scores` dict of get_hybrid_recommendations. -/
structure HybridEntry where
  id : Option Nat
  tmdbId : Nat
  contentScore : ℚ
  collabScore : ℚ
  hybridScore : ℚ
  deriving DecidableEq

/-- Python `rec.get('id') or rec.get('tmdb_id')` on a content dict: `None`
and 0 are both falsy. -/
def contentKey (r : ContentRec) : Nat :=
  match r.id with
  | some i => if i = 0 then r.tmdbId else i
  | none => r.tmdbId

/-- Python `rec.get('id') or rec.get('tmdb_id')` on a collaborative dict. -/
def collabKey (r : CollabRec) : Nat := if r.id = 0 then r.tmdbId else r.id

/-- Python `rec.get('id') or rec.get('tmdb_id')` on a movie_scores entry. -/
def entryKey (e : HybridEntry) : Nat :=
  match e.id with
  | some i => if i = 0 then e.tmdbId else i
  | none => e.tmdbId

/-- `RecommendationService.HYBRID_CONTENT_WEIGHT`. -/
def HYBRID_CONTENT_WEIGHT : ℚ := 0.7

/-- `RecommendationService.HYBRID_COLLABORATIVE_WEIGHT`. -/
def HYBRID_COLLABORATIVE_WEIGHT : ℚ := 0.3

/-- Python `max` over a score list (only ever applied to non-empty lists in
the source, which guards with `if content_recs:` / `if collab_recs:`). -/
def maxQ : List ℚ → ℚ
  | [] => 0
  | x :: xs => xs.foldl max x

/-- Step 3 of get_hybrid_recommendations for the content side: divide each
raw score by the maximum of the current result set when that maximum is
positive, else set every normalized score to 0 (the explicit
no-division-by-zero branch of the source). -/
def normalizeContent (recs : List ContentRec) : List (ContentRec × ℚ) :=
  let m := maxQ (recs.map (·.score))
  recs.map (fun r => (r, if m > 0 then r.score / m else 0))

/-- Step 3 for the collaborative side (same normalization over
predicted_rating). -/
def normalizeCollab (recs : List CollabRec) : List (CollabRec × ℚ) :=
  let m := maxQ (recs.map (·.predictedRating))
  recs.map (fun r => (r, if m > 0 then r.predictedRating / m else 0))

/-- Python dict assignment `movie_scores[key] = entry`: replace in place when
the key exists (keeping insertion order), else append. -/
def upsertEntry (scores : List (Nat × HybridEntry)) (key : Nat)
    (e : HybridEntry) : List (Nat × HybridEntry) :=
  if scores.any (fun p => p.1 == key) then
    scores.map (fun p => if p.1 == key then (key, e) else p)
  else scores ++ [(key, e)]

/-- The in-place collaborative update of step 4: set `collab_score` and add
`collaborative_weight * collab_score` to the stored `hybrid_score`. -/
def addCollab (scores : List (Nat × HybridEntry)) (key : Nat) (c : ℚ) :
    List (Nat × HybridEntry) :=
  scores.map (fun p =>
    if p.1 == key then
      (p.1,
        { p.2 with
          collabScore := c
          hybridScore := p.2.hybridScore + HYBRID_COLLABORATIVE_WEIGHT * c })
    else p)

/-- One iteration of the step-4 content loop: the content rec is written into
movie_scores with `hybrid_score = content_weight * normalized_content_score`
and a zero collaborative score. -/
def contentStep (scores : List (Nat × HybridEntry)) (rc : ContentRec × ℚ) :
    List (Nat × HybridEntry) :=
  upsertEntry scores (contentKey rc.1)
    { id := rc.1.id
      tmdbId := rc.1.tmdbId
      contentScore := rc.2
      collabScore := 0
      hybridScore := HYBRID_CONTENT_WEIGHT * rc.2 }

/-- Step 4, content loop, over all content recs. -/
def contentPhase (recs : List (ContentRec × ℚ)) : List (Nat × HybridEntry) :=
  recs.foldl contentStep []

/-- One iteration of the step-4 collaborative loop: update the stored entry
when the key is already present, else insert a collaborative-only entry. -/
def collabStep (scores : List (Nat × HybridEntry)) (rc : CollabRec × ℚ) :
    List (Nat × HybridEntry) :=
  let key := collabKey rc.1
  if scores.any (fun p => p.1 == key) then addCollab scores key rc.2
  else
    scores ++ [(key,
      { id := some rc.1.id
        tmdbId := rc.1.tmdbId
        contentScore := 0
        collabScore := rc.2
        hybridScore := HYBRID_COLLABORATIVE_WEIGHT * rc.2 })]

/-- Step 4, collaborative loop, over all collaborative recs. -/
def collabPhase (scores : List (Nat × HybridEntry))
    (recs : List (CollabRec × ℚ)) : List (Nat × HybridEntry) :=
  recs.foldl collabStep scores

/-- The final filter loop of get_hybrid_recommendations: keep entries with a
truthy key not yet seen and not among the user's rated movie ids, stop at
`limit`.  Returns the kept entries together with the seen-key set (needed by
the popularity fallback).  NB: the rated ids are internal `movies.id` values
while a content entry's key is its TMDB id. -/
def filterLoop (ratedIds : List Nat) (limit : Nat) :
    List HybridEntry → List Nat → List HybridEntry →
    List HybridEntry × List Nat
  | [], seen, acc => (acc, seen)
  | e :: rest, seen, acc =>
    let key := entryKey e
    if key ≠ 0 ∧ key ∉ seen ∧ key ∉ ratedIds then
      if acc.length + 1 ≥ limit then (acc ++ [e], seen ++ [key])
      else filterLoop ratedIds limit rest (seen ++ [key]) (acc ++ [e])
    else filterLoop ratedIds limit rest seen acc

/-- The popularity fallback of get_hybrid_recommendations: cached movies with
vote_average ≥ 7 whose TMDB id is in neither the rated-id set nor the seen
set, ordered by popularity descending, fixed scores
(content 0.5, hybrid 0.35). -/
def hybridFallback (store : List MovieCache) (ratedIds seen : List Nat)
    (need : Nat) : List HybridEntry :=
  (((store.filter (fun m =>
      ((m.voteAverage.map (fun v => decide ((7 : ℚ) ≤ v))).getD false)
        && !(m.tmdbId ∈ ratedIds) && !(m.tmdbId ∈ seen))).mergeSort
    (fun a b => decide (b.popularity.getD 0 ≤ a.popularity.getD 0))).take need).map
    (fun m =>
      { id := some m.id
        tmdbId := m.tmdbId
        contentScore := 0.5
        collabScore := 0
        hybridScore := 0.35 })

/-- Steps 3-5 of `RecommendationService.get_hybrid_recommendations` (the
fusion pipeline): normalize both component score sets, fuse them into
movie_scores, sort by hybrid score descending (stable), drop seen/rated keys
up to `limit`, and backfill with the popularity fallback.  The component rec
lists are parameters (steps 1-2 produce them from the similarity engine and
the collaborative service). -/
def getHybridPipeline (contentRecs : List ContentRec)
    (collabRecs : List CollabRec) (ratings : List RatingRow) (userId : Nat)
    (store : List MovieCache) (limit : Nat) : List HybridEntry :=
  let scores := collabPhase (contentPhase (normalizeContent contentRecs))
    (normalizeCollab collabRecs)
  let results := (scores.map (·.2)).mergeSort
    (fun a b => decide (b.hybridScore ≤ a.hybridScore))
  let ratedIds := (ratings.filter (fun r => r.userId == userId)).map (·.movieId)
  let fs := filterLoop ratedIds limit results [] []
  if fs.1.length < limit then
    fs.1 ++ hybridFallback store ratedIds fs.2 (limit - fs.1.length)
  else fs.1

/-- Bound propagation for the max fold behind `maxQ`. -/
theorem le_foldl_max : ∀ (l : List ℚ) (a x : ℚ), x ∈ l ∨ x ≤ a → x ≤ l.foldl max a
  | [], _, _, h => by
    rcases h with h | h
    · cases h
    · simpa using h
  | b :: t, a, x, h => by
    rw [List.foldl_cons]
    apply le_foldl_max t (max a b) x
    rcases h with h | h
    · rcases List.mem_cons.mp h with rfl | h2
      · exact Or.inr (le_max_right a x)
      · exact Or.inl h2
    · exact Or.inr (le_trans h (le_max_left a b))

/-- Every member of a list is at most its Python `max`. -/
theorem le_maxQ (l : List ℚ) (x : ℚ) (h : x ∈ l) : x ≤ maxQ l := by
  cases l with
  | nil => cases h
  | cons a t =>
    rw [maxQ]
    rcases List.mem_cons.mp h with rfl | h2
    · exact le_foldl_max t x x (Or.inr (le_refl x))
    · exact le_foldl_max t a x (Or.inl h2)

/-- Normalized content scores lie in [0, 1] for non-negative raw scores. -/
theorem normalizeContent_bounds (recs : List ContentRec)
    (h : ∀ r ∈ recs, 0 ≤ r.score) :
    ∀ p ∈ normalizeContent recs, 0 ≤ p.2 ∧ p.2 ≤ 1 := by
  intro p hp
  unfold normalizeContent at hp
  obtain ⟨r, hr, rfl⟩ := List.mem_map.mp hp
  dsimp only
  by_cases hm : maxQ (recs.map (·.score)) > 0
  · rw [if_pos hm]
    refine ⟨div_nonneg (h r hr) (le_of_lt hm), ?_⟩
    rw [div_le_one hm]
    exact le_maxQ _ _ (List.mem_map_of_mem _ hr)
  · rw [if_neg hm]
    exact ⟨le_refl 0, by norm_num⟩

/-- Normalized collaborative scores lie in [0, 1] for non-negative raw
predicted ratings. -/
theorem normalizeCollab_bounds (recs : List CollabRec)
    (h : ∀ r ∈ recs, 0 ≤ r.predictedRating) :
    ∀ p ∈ normalizeCollab recs, 0 ≤ p.2 ∧ p.2 ≤ 1 := by
  intro p hp
  unfold normalizeCollab at hp
  obtain ⟨r, hr, rfl⟩ := List.mem_map.mp hp
  dsimp only
  by_cases hm : maxQ (recs.map (·.predictedRating)) > 0
  · rw [if_pos hm]
    refine ⟨div_nonneg (h r hr) (le_of_lt hm), ?_⟩
    rw [div_le_one hm]
    exact le_maxQ _ _ (List.mem_map_of_mem _ hr)
  · rw [if_neg hm]
    exact ⟨le_refl 0, by norm_num⟩

/-- A sane movie_scores entry: both component scores in [0, 1] and the hybrid
score equal to the weighted combination. -/
def entryOk (e : HybridEntry) : Prop :=
  0 ≤ e.contentScore ∧ e.contentScore ≤ 1 ∧ 0 ≤ e.collabScore ∧
    e.collabScore ≤ 1 ∧
    e.hybridScore = HYBRID_CONTENT_WEIGHT * e.contentScore +
      HYBRID_COLLABORATIVE_WEIGHT * e.collabScore

/-- A sane entry has its hybrid score in [0, 1]. -/
theorem entryOk_hybrid_bounds (e : HybridEntry) (h : entryOk e) :
    0 ≤ e.hybridScore ∧ e.hybridScore ≤ 1 := by
  obtain ⟨h1, h2, h3, h4, h5⟩ := h
  rw [h5]
  unfold HYBRID_CONTENT_WEIGHT HYBRID_COLLABORATIVE_WEIGHT
  constructor
  · have := mul_nonneg (by norm_num : (0 : ℚ) ≤ 0.7) h1
    have := mul_nonneg (by norm_num : (0 : ℚ) ≤ 0.3) h3
    linarith
  · have := mul_le_mul_of_nonneg_left h2 (by norm_num : (0 : ℚ) ≤ 0.7)
    have := mul_le_mul_of_nonneg_left h4 (by norm_num : (0 : ℚ) ≤ 0.3)
    linarith

/-- A dict upsert preserves any per-pair predicate that the new pair
satisfies. -/
theorem upsertEntry_forall {P : Nat × HybridEntry → Prop}
    (scores : List (Nat × HybridEntry)) (key : Nat) (e : HybridEntry)
    (hs : ∀ p ∈ scores, P p) (he : P (key, e)) :
    ∀ p ∈ upsertEntry scores key e, P p := by
  intro p hp
  unfold upsertEntry at hp
  by_cases hany : scores.any (fun p => p.1 == key) = true
  · rw [if_pos hany] at hp
    obtain ⟨q, hq, hqe⟩ := List.mem_map.mp hp
    by_cases hk : q.1 == key
    · rw [if_pos hk] at hqe
      exact hqe ▸ he
    · rw [if_neg hk] at hqe
      exact hqe ▸ hs q hq
  · rw [if_neg hany] at hp
    rcases List.mem_append.mp hp with h | h
    · exact hs p h
    · rw [List.mem_singleton] at h
      rw [h]
      exact he

/-- The content loop produces only sane entries with zero collaborative
score. -/
theorem contentPhase_fold_ok :
    ∀ (recs : List (ContentRec × ℚ)) (init : List (Nat × HybridEntry)),
      (∀ rc ∈ recs, 0 ≤ rc.2 ∧ rc.2 ≤ 1) →
      (∀ p ∈ init, entryOk p.2 ∧ p.2.collabScore = 0) →
      ∀ p ∈ recs.foldl contentStep init, entryOk p.2 ∧ p.2.collabScore = 0
  | [], _, _, hinit, p, hp => hinit p hp
  | rc :: t, init, hb, hinit, p, hp => by
    rw [List.foldl_cons] at hp
    refine contentPhase_fold_ok t (contentStep init rc)
      (fun x hx => hb x (List.mem_cons_of_mem _ hx)) ?_ p hp
    apply upsertEntry_forall init _ _ hinit
    have hrc := hb rc (List.mem_cons_self _ _)
    exact ⟨⟨hrc.1, hrc.2, le_refl 0, by norm_num, by
      show HYBRID_CONTENT_WEIGHT * rc.2 =
        HYBRID_CONTENT_WEIGHT * rc.2 + HYBRID_COLLABORATIVE_WEIGHT * 0
      rw [mul_zero, add_zero]⟩, rfl⟩

/-- The collaborative loop keeps every entry sane: present keys get their one
collaborative update (keys are distinct since they come from a dict), new
keys insert collaborative-only entries. -/
theorem collabPhase_fold_ok :
    ∀ (recs : List (CollabRec × ℚ)) (scores : List (Nat × HybridEntry)),
      (∀ rc ∈ recs, 0 ≤ rc.2 ∧ rc.2 ≤ 1) →
      (recs.map (fun rc => collabKey rc.1)).Nodup →
      (∀ p ∈ scores, entryOk p.2) →
      (∀ p ∈ scores, p.1 ∈ recs.map (fun rc => collabKey rc.1) →
        p.2.collabScore = 0) →
      ∀ p ∈ recs.foldl collabStep scores, entryOk p.2
  | [], _, _, _, hok, _, p, hp => hok p hp
  | rc :: t, scores, hb, hnd, hok, hz, p, hp => by
    rw [List.foldl_cons] at hp
    rw [List.map_cons, List.nodup_cons] at hnd
    have hrc := hb rc (List.mem_cons_self _ _)
    refine collabPhase_fold_ok t (collabStep scores rc)
      (fun x hx => hb x (List.mem_cons_of_mem _ hx)) hnd.2 ?_ ?_ p hp
    · -- entryOk is preserved by one collaborative step
      intro q hq
      unfold collabStep at hq
      by_cases hany : scores.any (fun p => p.1 == collabKey rc.1) = true
      · rw [if_pos hany] at hq
        unfold addCollab at hq
        obtain ⟨w, hw, hwe⟩ := List.mem_map.mp hq
        by_cases hk : w.1 == collabKey rc.1
        · rw [if_pos hk] at hwe
          obtain ⟨ho1, ho2, -, -, ho5⟩ := hok w hw
          rw [beq_iff_eq] at hk
          have hcol0 : w.2.collabScore = 0 := by
            apply hz w hw
            rw [List.map_cons, hk]
            exact List.mem_cons_self _ _
          subst hwe
          refine ⟨ho1, ho2, hrc.1, hrc.2, ?_⟩
          dsimp only
          rw [ho5, hcol0, mul_zero, add_zero]
        · rw [if_neg hk] at hwe
          exact hwe ▸ hok w hw
      · rw [if_neg hany] at hq
        rcases List.mem_append.mp hq with h | h
        · exact hok q h
        · rw [List.mem_singleton] at h
          rw [h]
          refine ⟨le_refl 0, by norm_num, hrc.1, hrc.2, ?_⟩
          show HYBRID_COLLABORATIVE_WEIGHT * rc.2 =
            HYBRID_CONTENT_WEIGHT * 0 + HYBRID_COLLABORATIVE_WEIGHT * rc.2
          rw [mul_zero, zero_add]
    · -- keys still to be processed keep a zero collaborative score
      intro q hq hqt
      unfold collabStep at hq
      by_cases hany : scores.any (fun p => p.1 == collabKey rc.1) = true
      · rw [if_pos hany] at hq
        unfold addCollab at hq
        obtain ⟨w, hw, hwe⟩ := List.mem_map.mp hq
        by_cases hk : w.1 == collabKey rc.1
        · rw [if_pos hk] at hwe
          rw [beq_iff_eq] at hk
          subst hwe
          have hqt2 : w.1 ∈ List.map (fun rc => collabKey rc.1) t := hqt
          rw [hk] at hqt2
          exact absurd hqt2 hnd.1
        · rw [if_neg hk] at hwe
          subst hwe
          exact hz w hw (List.mem_cons_of_mem _ hqt)
      · rw [if_neg hany] at hq
        rcases List.mem_append.mp hq with h | h
        · exact hz q h (List.mem_cons_of_mem _ hqt)
        · rw [List.mem_singleton] at h
          rw [h] at hqt
          exact absurd hqt hnd.1

/-- Members of the filter loop result come from its accumulator or its
remaining input. -/
theorem filterLoop_mem (ratedIds : List Nat) (limit : Nat) :
    ∀ (rem : List HybridEntry) (seen : List Nat) (acc : List HybridEntry)
      (e : HybridEntry),
      e ∈ (filterLoop ratedIds limit rem seen acc).1 → e ∈ acc ∨ e ∈ rem
  | [], _, _, _, h => Or.inl h
  | x :: rest, seen, acc, e, h => by
    rw [filterLoop] at h
    by_cases hcond : entryKey x ≠ 0 ∧ entryKey x ∉ seen ∧ entryKey x ∉ ratedIds
    · rw [if_pos hcond] at h
      by_cases hlen : acc.length + 1 ≥ limit
      · rw [if_pos hlen] at h
        rcases List.mem_append.mp h with h2 | h2
        · exact Or.inl h2
        · rw [List.mem_singleton] at h2
          exact Or.inr (h2 ▸ List.mem_cons_self _ _)
      · rw [if_neg hlen] at h
        rcases filterLoop_mem ratedIds limit rest _ _ e h with h2 | h2
        · rcases List.mem_append.mp h2 with h3 | h3
          · exact Or.inl h3
          · rw [List.mem_singleton] at h3
            exact Or.inr (h3 ▸ List.mem_cons_self _ _)
        · exact Or.inr (List.mem_cons_of_mem _ h2)
    · rw [if_neg hcond] at h
      rcases filterLoop_mem ratedIds limit rest _ _ e h with h2 | h2
      · exact Or.inl h2
      · exact Or.inr (List.mem_cons_of_mem _ h2)

/-- C9: every result of the hybrid fusion pipeline has `0 ≤ hybrid_score ≤ 1`
(under non-negative raw component scores and the dict-unique collaborative
keys the source produces), and in the all-zero edge case the per-request
normalization divides by nothing: every normalized content score is exactly
0, not NaN. -/
theorem getHybridPipeline_score_range (contentRecs : List ContentRec)
    (collabRecs : List CollabRec) (ratings : List RatingRow) (userId : Nat)
    (store : List MovieCache) (limit : Nat)
    (hc : ∀ r ∈ contentRecs, 0 ≤ r.score)
    (hk : ∀ r ∈ collabRecs, 0 ≤ r.predictedRating)
    (hnd : (collabRecs.map collabKey).Nodup) :
    (∀ e ∈ getHybridPipeline contentRecs collabRecs ratings userId store limit,
      0 ≤ e.hybridScore ∧ e.hybridScore ≤ 1) ∧
    ((∀ r ∈ contentRecs, r.score = 0) →
      ∀ p ∈ normalizeContent contentRecs, p.2 = 0) := by
  constructor
  · intro e he
    have hok : ∀ p ∈ collabPhase (contentPhase (normalizeContent contentRecs))
        (normalizeCollab collabRecs), entryOk p.2 := by
      have hkeys : (normalizeCollab collabRecs).map (fun rc => collabKey rc.1) =
          collabRecs.map collabKey := by
        unfold normalizeCollab
        rw [List.map_map]
        rfl
      refine collabPhase_fold_ok (normalizeCollab collabRecs)
        (contentPhase (normalizeContent contentRecs))
        (normalizeCollab_bounds collabRecs hk) (by rw [hkeys]; exact hnd)
        ?_ ?_
      · intro p hp
        exact (contentPhase_fold_ok (normalizeContent contentRecs) []
          (normalizeContent_bounds contentRecs hc)
          (fun q hq => absurd hq (List.not_mem_nil q)) p hp).1
      · intro p hp _
        exact (contentPhase_fold_ok (normalizeContent contentRecs) []
          (normalizeContent_bounds contentRecs hc)
          (fun q hq => absurd hq (List.not_mem_nil q)) p hp).2
    unfold getHybridPipeline at he
    by_cases hlen : (filterLoop
        ((ratings.filter (fun r => r.userId == userId)).map (·.movieId)) limit
        (((collabPhase (contentPhase (normalizeContent contentRecs))
          (normalizeCollab collabRecs)).map (·.2)).mergeSort
          (fun a b => decide (b.hybridScore ≤ a.hybridScore))) [] []).1.length
        < limit
    · rw [if_pos hlen] at he
      rcases List.mem_append.mp he with h | h
      · rcases filterLoop_mem _ _ _ _ _ e h with h2 | h2
        · cases h2
        · rw [List.mem_mergeSort] at h2
          obtain ⟨q, hq, hqe⟩ := List.mem_map.mp h2
          exact hqe ▸ entryOk_hybrid_bounds q.2 (hok q hq)
      · unfold hybridFallback at h
        obtain ⟨m, -, hme⟩ := List.mem_map.mp h
        rw [← hme]
        constructor
        · norm_num
        · norm_num
    · rw [if_neg hlen] at he
      rcases filterLoop_mem _ _ _ _ _ e he with h2 | h2
      · cases h2
      · rw [List.mem_mergeSort] at h2
        obtain ⟨q, hq, hqe⟩ := List.mem_map.mp h2
        exact hqe ▸ entryOk_hybrid_bounds q.2 (hok q hq)
  · intro hz p hp
    unfold normalizeContent at hp
    obtain ⟨r, hr, rfl⟩ := List.mem_map.mp hp
    dsimp only
    rw [hz r hr]
    by_cases hm : maxQ (contentRecs.map (·.score)) > 0
    · rw [if_pos hm, zero_div]
    · rw [if_neg hm]

/-- The movies-table row behind the concrete hybrid scenario: internal id 1,
TMDB id 2000. -/
def movieRow2000 : MovieRow := ⟨1, 2000⟩

/-- A single content rec for TMDB id 2000 (content recs from the similarity
engine carry no `id` key). -/
def tinyContent : List ContentRec := [⟨none, 2000, 1⟩]

/-- The user's one rating: user 1 rated the movie with internal id 1
(= `movieRow2000`) at 9.0. -/
def tinyRatings : List RatingRow := [⟨1, 1, 9⟩]

/-- The entry the fusion pipeline produces for the content rec. -/
def tinyEntry : HybridEntry :=
  { id := none
    tmdbId := 2000
    contentScore := 1
    collabScore := 0
    hybridScore := 7/10 }

/-- Concrete evaluation of the fusion pipeline on the one-rating scenario. -/
theorem hybridTinyEval :
    getHybridPipeline tinyContent [] tinyRatings 1 [] 10 = [tinyEntry] := by
  simp [getHybridPipeline, tinyContent, tinyRatings, tinyEntry, normalizeContent,
    normalizeCollab, contentPhase, contentStep, collabPhase, upsertEntry, maxQ,
    contentKey, filterLoop, entryKey, hybridFallback, HYBRID_CONTENT_WEIGHT]
  norm_num

/-- C3: a movie the user has already rated can appear in the hybrid results —
the exclusion filter compares content keys (TMDB ids) against the internal
`movies.id` values stored in rating rows.  User 1 rated the movie with
internal id 1 and TMDB id 2000 (at 9.0), yet the pipeline returns the entry
with TMDB id 2000 because 2000 is compared against the rated-id set {1}. -/
theorem getHybridPipeline_rated_exclusion_cex :
    (getHybridPipeline tinyContent [] tinyRatings 1 [] 10).map (·.tmdbId) =
      [2000] ∧
    movieRow2000.id = 1 ∧ movieRow2000.tmdbId = 2000 ∧
    (⟨1, movieRow2000.id, 9⟩ : RatingRow) ∈ tinyRatings :=
  ⟨by rw [hybridTinyEval]; rfl, rfl, rfl, by decide⟩

/-- An all-zero content score set for the normalization edge case. -/
def zeroContent : List ContentRec := [⟨none, 5, 0⟩]

/-- Witness for C9: the concrete pipeline result has its hybrid score in
[0, 1], and the all-zero content set normalizes to 0. -/
theorem getHybridPipeline_score_range_witness :
    (0 ≤ tinyEntry.hybridScore ∧ tinyEntry.hybridScore ≤ 1) ∧
    ((⟨none, 5, 0⟩ : ContentRec), (0 : ℚ)).2 = 0 :=
  ⟨(getHybridPipeline_score_range tinyContent [] tinyRatings 1 [] 10
      (by norm_num [tinyContent]) (by simp) (by simp)).1 tinyEntry
      (by rw [hybridTinyEval]; exact List.mem_singleton_self _),
   (getHybridPipeline_score_range zeroContent [] [] 1 [] 10
      (by norm_num [zeroContent]) (by simp) (by simp)).2
      (by norm_num [zeroContent]) (⟨none, 5, 0⟩, 0)
      (by simp [normalizeContent, zeroContent, maxQ])⟩

/-- The seven moods accepted by get_mood_based_recommendations (any other
string raises ValueError). -/
inductive Mood where
  | happy
  | sad
  | excited
  | relaxed
  | scared
  | thoughtful
  | romantic
  deriving DecidableEq

/-- One entry of `RecommendationService.MOOD_TO_GENRES`. -/
structure MoodConfig where
  includeGenres : List Nat
  excludeGenres : List Nat
  keywordsBoost : List String
  keywordsPenalty : List String
  deriving DecidableEq

/-- `RecommendationService.MOOD_TO_GENRES`, verbatim from the source table. -/
def MOOD_TO_GENRES : Mood → MoodConfig
  | .happy =>
    ⟨[35, 10751, 16, 10402], [27, 53, 80],
      ["feel-good", "friendship", "hope", "celebration", "fun", "comedy"],
      ["dark", "death", "murder", "violence", "tragedy"]⟩
  | .sad =>
    ⟨[18, 10749], [35, 28, 27],
      ["loss", "tragedy", "emotional", "tear-jerker", "heartbreak", "melancholy"],
      ["comedy", "action", "superhero", "adventure"]⟩
  | .excited =>
    ⟨[28, 12, 878, 14], [10749, 99],
      ["action", "adventure", "epic", "battle", "superhero", "chase", "explosion"],
      ["slow-paced", "romantic", "quiet", "documentary"]⟩
  | .relaxed =>
    ⟨[35, 10751, 16], [27, 53, 10752],
      ["light-hearted", "easy-watching", "feel-good", "gentle", "peaceful"],
      ["intense", "dark", "violent", "disturbing"]⟩
  | .scared =>
    ⟨[27, 53], [35, 10751, 16],
      ["horror", "suspense", "terror", "scary", "psychological", "thriller"],
      ["comedy", "family-friendly", "light-hearted"]⟩
  | .thoughtful =>
    ⟨[18, 9648, 36, 99, 878], [35, 27],
      ["thought-provoking", "philosophical", "complex", "intelligent", "mystery"],
      ["mindless", "simple", "comedy", "slasher"]⟩
  | .romantic =>
    ⟨[10749, 35, 18], [27, 28, 10752],
      ["romance", "love", "relationship", "heartwarming", "couple"],
      ["horror", "violence", "war", "action-packed"]⟩

/-- `RecommendationService.MOOD_MIN_RATING`. -/
def MOOD_MIN_RATING : ℚ := 6

/-- `RecommendationService.MOOD_MAX_CANDIDATES`. -/
def MOOD_MAX_CANDIDATES : Nat := 800

/-- A result dict of get_mood_based_recommendations /
_get_mood_base_scores. -/
structure MoodEntry where
  tmdbId : Nat
  title : String
  posterPath : Option String
  backdropPath : Option String
  voteAverage : Option ℚ
  popularity : Option ℚ
  releaseDate : Option String
  overview : String
  genres : List Nat
  moodScore : ℚ
  genreOverlap : Nat
  deriving DecidableEq

/-- Python `pat in hay` on strings: substring containment. -/
def strContainsSub (hay pat : String) : Bool :=
  hay.data.tails.any (fun t => pat.data.isPrefixOf t)

/-- The keyword source of _get_mood_base_scores:
`getattr(movie, "keyword_names", None) or getattr(movie, "keywords", None)`
(an empty keyword_names list is falsy and falls through to the keyword ids,
which are stringified by the `str(k)` in the loop). -/
def moodKeywordSource (m : MovieCache) : Option (List String) :=
  match m.keywordNames with
  | some l =>
    if l ≠ [] then some l
    else m.keywords.map (fun ks => ks.map (fun n => toString n))
  | none => m.keywords.map (fun ks => ks.map (fun n => toString n))

/-- The keyword multiplier of _get_mood_base_scores: starts at 1.0, +0.3 per
matched boost term, −0.4 per matched penalty term (substring match against
the lower-cased movie keywords), floored at 0.1; left at 1.0 when the movie
has no keyword list at all (the floor is inside the isinstance guard). -/
def keywordBoost (kws : Option (List String)) (boosts penalties : List String) : ℚ :=
  match kws with
  | none => 1
  | some l =>
    let lower := l.map lowerStr
    let afterBoost := boosts.foldl
      (fun b kw => if lower.any (fun mk => strContainsSub mk (lowerStr kw)) then b + 0.3 else b) 1
    let afterPen := penalties.foldl
      (fun b kw => if lower.any (fun mk => strContainsSub mk (lowerStr kw)) then b - 0.4 else b)
      afterBoost
    max 0.1 afterPen

/-- The body of the candidate loop of `_get_mood_base_scores`: skip movies
with a numeric vote_average below 6.0, without a non-empty genre list,
romantic-mood movies without genre 10749, movies intersecting the
exclude-genre set, and movies with zero overlap with the include set;
otherwise build the scored dict with
`genre_score * keyword_boost * rating_boost * popularity_boost`
(rounded to 3 decimals). -/
def moodBaseEntry (mood : Mood) (cfg : MoodConfig) (m : MovieCache) :
    Option MoodEntry :=
  if (m.voteAverage.map (fun v => decide (v < MOOD_MIN_RATING))).getD false then none
  else
    let genresRaw := m.genres.getD []
    if genresRaw = [] then none
    else
      let mg := genresRaw.toFinset
      if mood = .romantic ∧ 10749 ∉ mg then none
      else if (mg ∩ cfg.excludeGenres.toFinset).Nonempty then none
      else
        let overlap := (mg ∩ cfg.includeGenres.toFinset).card
        if overlap = 0 then none
        else
          let genreScore : ℚ := overlap / cfg.includeGenres.toFinset.card
          let kb := keywordBoost (moodKeywordSource m) cfg.keywordsBoost cfg.keywordsPenalty
          let ratingBoost : ℚ := match m.voteAverage with
            | some v => 1 + v / 10
            | none => 1
          let popBoost : ℚ := match m.popularity with
            | some p => 1 + p / 1000 * 0.2
            | none => 1
          some { tmdbId := m.tmdbId
                 title := m.title
                 posterPath := m.posterPath
                 backdropPath := m.backdropPath
                 voteAverage := m.voteAverage
                 popularity := m.popularity
                 releaseDate := m.releaseDate
                 overview := m.overview
                 genres := genresRaw
                 moodScore := rnd3 (genreScore * kb * ratingBoost * popBoost)
                 genreOverlap := overlap }

/-- `RecommendationService._get_mood_base_scores` without its 15-minute
memoization layer: the cache only replays the very data this function
computed for the same mood and candidate signature, so the pure scoring
pipeline is the observable behaviour.  Scores the candidates and sorts by
mood_score descending (stable). -/
def moodBaseScores (mood : Mood) (cfg : MoodConfig)
    (candidates : List MovieCache) : List MoodEntry :=
  (candidates.filterMap (moodBaseEntry mood cfg)).mergeSort
    (fun a b => decide (b.moodScore ≤ a.moodScore))

/-- The personalization layer of get_mood_based_recommendations: when the
user has ratings and the entry has a numeric vote_average, boost the score by
1.3 when the vote is within 1.5 of the user's average, shrink by 0.8 when it
is more than 3.0 away, and re-round to 3 decimals. -/
def personalizeMoodEntry (hasRatings : Bool) (userAvg : ℚ) (e : MoodEntry) :
    MoodEntry :=
  if hasRatings then
    match e.voteAverage with
    | some v =>
      let diff := |v - userAvg|
      let ps := if diff < 1.5 then e.moodScore * 1.3
        else if diff > 3 then e.moodScore * 0.8
        else e.moodScore
      { e with moodScore := rnd3 ps }
    | none => e
  else e

/-- The (release-year, primary-genre) pairing used by the diversity pass. -/
def comboOf (e : MoodEntry) : String × Option Nat :=
  (match e.releaseDate with
   | some s => if s = "" then "unknown" else s.take 4
   | none => "unknown",
   e.genres.head?)

/-- The diversity pass of get_mood_based_recommendations: walk the scored
list, skip an entry when two results with the same (year, primary-genre)
combination were already kept, stop at `limit`. -/
def diversityPass (limit : Nat) : List MoodEntry → List MoodEntry → List MoodEntry
  | [], acc => acc
  | e :: rest, acc =>
    if acc.length ≥ limit then acc
    else if acc ≠ [] ∧ 2 ≤ (acc.filter (fun m => comboOf m = comboOf e)).length then
      diversityPass limit rest acc
    else diversityPass limit rest (acc ++ [e])

/-- One fallback entry of get_mood_based_recommendations (fixed mood_score
0.5). -/
def moodFallbackEntry (cfg : MoodConfig) (m : MovieCache) : MoodEntry :=
  { tmdbId := m.tmdbId
    title := m.title
    posterPath := m.posterPath
    backdropPath := m.backdropPath
    voteAverage := m.voteAverage
    popularity := m.popularity
    releaseDate := m.releaseDate
    overview := m.overview
    genres := m.genres.getD []
    moodScore := 0.5
    genreOverlap := ((m.genres.getD []).toFinset ∩ cfg.includeGenres.toFinset).card }

/-- The relaxed-threshold backfill loop: append fallback candidates that share
a genre with the include set and do not intersect the exclude set, until
`limit` entries exist. -/
def moodFallbackLoop (cfg : MoodConfig) (limit : Nat) :
    List MovieCache → List MoodEntry → List MoodEntry
  | [], acc => acc
  | m :: rest, acc =>
    if acc.length ≥ limit then acc
    else
      let mg := (m.genres.getD []).toFinset
      if ¬ (mg ∩ cfg.includeGenres.toFinset).Nonempty then
        moodFallbackLoop cfg limit rest acc
      else if (mg ∩ cfg.excludeGenres.toFinset).Nonempty then
        moodFallbackLoop cfg limit rest acc
      else moodFallbackLoop cfg limit rest (acc ++ [moodFallbackEntry cfg m])

/-- The user's rating rows (`db.query(Rating).filter(Rating.user_id == user_id)`). -/
def moodUserRatings (ratings : List RatingRow) (userId : Nat) : List RatingRow :=
  ratings.filter (fun r => r.userId == userId)

/-- The user's average rating for personalization (default 7.0). -/
def moodUserAvg (ratings : List RatingRow) (userId : Nat) : ℚ :=
  if (moodUserRatings ratings userId).length ≠ 0 then
    ((moodUserRatings ratings userId).map (·.rating)).sum /
      (moodUserRatings ratings userId).length
  else 7

/-- The user's rated movie ids (internal `movies.id` values). -/
def moodRatedIds (ratings : List RatingRow) (userId : Nat) : List Nat :=
  (moodUserRatings ratings userId).map (·.movieId)

/-- The mood-specific minimum vote average (stricter by 0.5 for
sad/thoughtful/romantic). -/
def moodMinRating (mood : Mood) : ℚ :=
  if mood = .sad ∨ mood = .thoughtful ∨ mood = .romantic then
    MOOD_MIN_RATING + 0.5
  else MOOD_MIN_RATING

/-- The candidate query: vote_average at least the mood minimum, non-null
genres, popularity descending, capped at 800. -/
def moodCandidates (store : List MovieCache) (mood : Mood) : List MovieCache :=
  ((store.filter (fun m =>
      ((m.voteAverage.map (fun v => decide (moodMinRating mood ≤ v))).getD false)
        && m.genres.isSome)).mergeSort
    (fun a b => decide (b.popularity.getD 0 ≤ a.popularity.getD 0))).take
    MOOD_MAX_CANDIDATES

/-- Personalized base scores with the user's rated movies dropped, re-sorted
by mood_score descending. -/
def moodSorted (store : List MovieCache) (ratings : List RatingRow)
    (userId : Nat) (mood : Mood) : List MoodEntry :=
  ((moodBaseScores mood (MOOD_TO_GENRES mood) (moodCandidates store mood)).filterMap
    (fun e =>
      if e.tmdbId ∈ moodRatedIds ratings userId then none
      else some (personalizeMoodEntry
        ((moodUserRatings ratings userId).length != 0)
        (moodUserAvg ratings userId) e))).mergeSort
    (fun a b => decide (b.moodScore ≤ a.moodScore))

/-- The diversity-filtered results. -/
def moodDiverse (store : List MovieCache) (ratings : List RatingRow)
    (userId : Nat) (mood : Mood) (limit : Nat) : List MoodEntry :=
  diversityPass limit (moodSorted store ratings userId mood) []

/-- The relaxed-threshold fallback query: vote_average at least
`max(5.5, mood minimum - 0.5)`, non-null genres, not rated and not already in
the results, popularity descending, capped at twice the limit. -/
def moodFbCandidates (store : List MovieCache) (ratings : List RatingRow)
    (userId : Nat) (mood : Mood) (limit : Nat) : List MovieCache :=
  ((store.filter (fun m =>
      ((m.voteAverage.map
        (fun v => decide (max (11/2) (moodMinRating mood - 0.5) ≤ v))).getD false)
        && m.genres.isSome && !(m.tmdbId ∈ moodRatedIds ratings userId)
        && !(m.tmdbId ∈ (moodDiverse store ratings userId mood limit).map (·.tmdbId)))).mergeSort
    (fun a b => decide (b.popularity.getD 0 ≤ a.popularity.getD 0))).take
    (limit * 2)

/-- `RecommendationService.get_mood_based_recommendations`: empty when the
candidate query is empty, otherwise the diversity-filtered personalized
results, backfilled by the relaxed-threshold loop when fewer than `limit`
remain. -/
def getMoodBasedRecommendations (store : List MovieCache)
    (ratings : List RatingRow) (userId : Nat) (mood : Mood) (limit : Nat) :
    List MoodEntry :=
  if moodCandidates store mood = [] then []
  else if (moodDiverse store ratings userId mood limit).length < limit then
    moodFallbackLoop (MOOD_TO_GENRES mood) limit
      (moodFbCandidates store ratings userId mood limit)
      (moodDiverse store ratings userId mood limit)
  else moodDiverse store ratings userId mood limit

/-- A base-score entry never carries a genre from the exclude set. -/
theorem moodBaseEntry_excludes (mood : Mood) (cfg : MoodConfig)
    (m : MovieCache) (e : MoodEntry) (h : moodBaseEntry mood cfg m = some e) :
    ∀ g ∈ e.genres, g ∉ cfg.excludeGenres := by
  simp only [moodBaseEntry] at h
  by_cases h1 : ((m.voteAverage.map (fun v => decide (v < MOOD_MIN_RATING))).getD false) = true
  · rw [if_pos h1] at h
    cases h
  · rw [if_neg h1] at h
    by_cases h2 : m.genres.getD [] = []
    · rw [if_pos h2] at h
      cases h
    · rw [if_neg h2] at h
      by_cases h3 : mood = Mood.romantic ∧ 10749 ∉ (m.genres.getD []).toFinset
      · rw [if_pos h3] at h
        cases h
      · rw [if_neg h3] at h
        by_cases h4 : ((m.genres.getD []).toFinset ∩ cfg.excludeGenres.toFinset).Nonempty
        · rw [if_pos h4] at h
          cases h
        · rw [if_neg h4] at h
          by_cases h5 : ((m.genres.getD []).toFinset ∩ cfg.includeGenres.toFinset).card = 0
          · rw [if_pos h5] at h
            cases h
          · rw [if_neg h5] at h
            injection h with he
            subst he
            intro g hg hgex
            exact h4 ⟨g, Finset.mem_inter.mpr
              ⟨List.mem_toFinset.mpr hg, List.mem_toFinset.mpr hgex⟩⟩

/-- Personalization only changes the score, never the genre list. -/
theorem personalizeMoodEntry_genres (b : Bool) (avg : ℚ) (e : MoodEntry) :
    (personalizeMoodEntry b avg e).genres = e.genres := by
  unfold personalizeMoodEntry
  split
  · split
    · rfl
    · rfl
  · rfl

/-- Members of the diversity pass come from its accumulator or its input. -/
theorem diversityPass_mem (limit : Nat) :
    ∀ (l : List MoodEntry) (acc : List MoodEntry) (e : MoodEntry),
      e ∈ diversityPass limit l acc → e ∈ acc ∨ e ∈ l
  | [], _, _, h => Or.inl h
  | x :: rest, acc, e, h => by
    rw [diversityPass] at h
    by_cases h1 : acc.length ≥ limit
    · rw [if_pos h1] at h
      exact Or.inl h
    · rw [if_neg h1] at h
      by_cases h2 : acc ≠ [] ∧ 2 ≤ (acc.filter (fun m => comboOf m = comboOf x)).length
      · rw [if_pos h2] at h
        rcases diversityPass_mem limit rest acc e h with h3 | h3
        · exact Or.inl h3
        · exact Or.inr (List.mem_cons_of_mem _ h3)
      · rw [if_neg h2] at h
        rcases diversityPass_mem limit rest _ e h with h3 | h3
        · rcases List.mem_append.mp h3 with h4 | h4
          · exact Or.inl h4
          · rw [List.mem_singleton] at h4
            exact Or.inr (h4 ▸ List.mem_cons_self _ _)
        · exact Or.inr (List.mem_cons_of_mem _ h3)

/-- The backfill loop preserves a predicate that exclusion-checked fallback
entries satisfy. -/
theorem moodFallbackLoop_forall {P : MoodEntry → Prop} (cfg : MoodConfig)
    (limit : Nat) :
    ∀ (l : List MovieCache) (acc : List MoodEntry),
      (∀ x ∈ acc, P x) →
      (∀ m ∈ l,
        ¬ (((m.genres.getD []).toFinset ∩ cfg.excludeGenres.toFinset).Nonempty) →
        P (moodFallbackEntry cfg m)) →
      ∀ x ∈ moodFallbackLoop cfg limit l acc, P x
  | [], _, hacc, _, x, hx => hacc x hx
  | m :: rest, acc, hacc, hl, x, hx => by
    rw [moodFallbackLoop] at hx
    by_cases h1 : acc.length ≥ limit
    · rw [if_pos h1] at hx
      exact hacc x hx
    · rw [if_neg h1] at hx
      by_cases h2 : ¬ (((m.genres.getD []).toFinset ∩
          cfg.includeGenres.toFinset).Nonempty)
      · rw [if_pos h2] at hx
        exact moodFallbackLoop_forall cfg limit rest acc hacc
          (fun y hy => hl y (List.mem_cons_of_mem _ hy)) x hx
      · rw [if_neg h2] at hx
        by_cases h3 : (((m.genres.getD []).toFinset ∩
            cfg.excludeGenres.toFinset).Nonempty)
        · rw [if_pos h3] at hx
          exact moodFallbackLoop_forall cfg limit rest acc hacc
            (fun y hy => hl y (List.mem_cons_of_mem _ hy)) x hx
        · rw [if_neg h3] at hx
          refine moodFallbackLoop_forall cfg limit rest _ ?_
            (fun y hy => hl y (List.mem_cons_of_mem _ hy)) x hx
          intro y hy
          rcases List.mem_append.mp hy with h4 | h4
          · exact hacc y h4
          · rw [List.mem_singleton] at h4
            exact h4 ▸ hl m (List.mem_cons_self _ _) h3

/-- C8: no mood recommendation — including the relaxed-threshold backfill —
carries a genre from the mood's exclude set; in particular the mood "scared"
never returns a movie with a genre in {Comedy 35, Family 10751,
Animation 16}. -/
theorem getMoodBasedRecommendations_excludes (store : List MovieCache)
    (ratings : List RatingRow) (userId : Nat) (mood : Mood) (limit : Nat) :
    (∀ e ∈ getMoodBasedRecommendations store ratings userId mood limit,
      ∀ g ∈ e.genres, g ∉ (MOOD_TO_GENRES mood).excludeGenres) ∧
    (∀ e ∈ getMoodBasedRecommendations store ratings userId Mood.scared limit,
      ∀ g ∈ e.genres, g ∉ ([35, 10751, 16] : List Nat)) := by
  have hmain : ∀ (mood : Mood),
      ∀ e ∈ getMoodBasedRecommendations store ratings userId mood limit,
      ∀ g ∈ e.genres, g ∉ (MOOD_TO_GENRES mood).excludeGenres := by
    intro mood e he
    have hdiverse : ∀ x ∈ moodDiverse store ratings userId mood limit,
        ∀ g ∈ x.genres, g ∉ (MOOD_TO_GENRES mood).excludeGenres := by
      intro x hx
      unfold moodDiverse at hx
      rcases diversityPass_mem limit _ [] x hx with h1 | h1
      · cases h1
      · unfold moodSorted at h1
        rw [List.mem_mergeSort] at h1
        obtain ⟨b, hb, hbe⟩ := List.mem_filterMap.mp h1
        by_cases hrt : b.tmdbId ∈ moodRatedIds ratings userId
        · rw [if_pos hrt] at hbe
          cases hbe
        · rw [if_neg hrt] at hbe
          injection hbe with hbe
          subst hbe
          rw [personalizeMoodEntry_genres]
          unfold moodBaseScores at hb
          rw [List.mem_mergeSort] at hb
          obtain ⟨m, -, hm⟩ := List.mem_filterMap.mp hb
          exact moodBaseEntry_excludes mood (MOOD_TO_GENRES mood) m b hm
    unfold getMoodBasedRecommendations at he
    by_cases hc : moodCandidates store mood = []
    · rw [if_pos hc] at he
      cases he
    · rw [if_neg hc] at he
      by_cases hl : (moodDiverse store ratings userId mood limit).length < limit
      · rw [if_pos hl] at he
        refine moodFallbackLoop_forall (MOOD_TO_GENRES mood) limit _ _
          hdiverse ?_ e he
        intro m _ hmex g hg hgex
        exact hmex ⟨g, Finset.mem_inter.mpr
          ⟨List.mem_toFinset.mpr hg, List.mem_toFinset.mpr hgex⟩⟩
      · rw [if_neg hl] at he
        exact hdiverse e he
  exact ⟨hmain mood, fun e he g hg hgex => hmain Mood.scared e he g hg hgex⟩

/-- A concrete horror movie row (tmdb 300, genre set {Horror 27}). -/
def horrorRow : MovieCache :=
  { id := 3
    tmdbId := 300
    title := "Scary"
    overview := ""
    releaseDate := none
    posterPath := none
    backdropPath := none
    voteAverage := some 7
    popularity := some 0
    genres := some [27]
    keywords := none
    keywordNames := none
    cast := none
    crew := none
    cachedAt := 0 }

/-- The mood entry the scared pipeline produces for `horrorRow`:
genre score 1/2, keyword boost 1, rating boost 17/10, popularity boost 1,
rounded to 0.85. -/
def scaredEntry : MoodEntry :=
  { tmdbId := 300
    title := "Scary"
    posterPath := none
    backdropPath := none
    voteAverage := some 7
    popularity := some 0
    releaseDate := none
    overview := ""
    genres := [27]
    moodScore := 850/1000
    genreOverlap := 1 }

/-- Concrete evaluation of the scared-mood pipeline on the one-movie store. -/
theorem moodScaredEval :
    getMoodBasedRecommendations [horrorRow] [] 1 Mood.scared 20 = [scaredEntry] := by
  have hbase : moodBaseEntry Mood.scared (MOOD_TO_GENRES Mood.scared) horrorRow =
      some scaredEntry := by
    norm_num +decide [moodBaseEntry, MOOD_TO_GENRES, horrorRow, scaredEntry,
      moodKeywordSource, keywordBoost, MOOD_MIN_RATING, rnd3, roundHalfEven,
      Int.fract]
  have hv : horrorRow.voteAverage = some 7 := rfl
  have hg : horrorRow.genres = some [27] := rfl
  have hp : horrorRow.popularity = some 0 := rfl
  have ht : horrorRow.tmdbId = 300 := rfl
  have hst : scaredEntry.tmdbId = 300 := rfl
  have hsorted : moodSorted [horrorRow] [] 1 Mood.scared = [scaredEntry] := by
    norm_num +decide [moodSorted, moodBaseScores, moodCandidates, moodMinRating,
      MOOD_MIN_RATING, MOOD_MAX_CANDIDATES, hv, hg, hp, hbase, moodRatedIds,
      moodUserRatings, personalizeMoodEntry, moodUserAvg, hst,
      List.filterMap_cons, List.filterMap_nil]
  have hdiv : moodDiverse [horrorRow] [] 1 Mood.scared 20 = [scaredEntry] := by
    norm_num +decide [moodDiverse, hsorted, diversityPass]
  norm_num +decide [getMoodBasedRecommendations, hdiv, moodCandidates, moodMinRating,
    MOOD_MIN_RATING, MOOD_MAX_CANDIDATES, hv, hg, hp, ht, hst, moodFbCandidates,
    moodRatedIds, moodUserRatings, moodFallbackLoop]

/-- Witness for C8: the scared result `scaredEntry` is produced by the
pipeline, its only genre is 27, and the theorem yields that this genre is not
one of the excluded {35, 10751, 16}. -/
theorem getMoodBasedRecommendations_excludes_witness :
    (27 : Nat) ∉ ([35, 10751, 16] : List Nat) :=
  (getMoodBasedRecommendations_excludes [horrorRow] [] 1 Mood.scared 20).2
    scaredEntry (by rw [moodScaredEval]; exact List.mem_singleton_self _) 27
    (by decide)

end MovieMate
